import Mathlib

/-!
Verification development for a document-conversion orchestrator (app.py).

The program processes uploaded documents one at a time: it materialises the
bytes as a temporary file, runs a primary conversion engine (MarkItDown), on
failure falls back to a PDF text extractor (pdfplumber) for .pdf inputs,
renders either a success view (text preview, download names, size comparison)
or a failure view (accumulated error details), and finally deletes the
temporary file, swallowing deletion errors.

The embedding below is a shallow model of process_file (and the per-file loop
in main). External effects are made explicit:
  - each engine call is an Except value: ok result or raised exception message;
  - creation of the temporary file is an Except value: ok path or raise;
  - the filesystem is a list of paths currently present;
  - whether os.remove raises is a boolean of the environment.
Python string.strip is modelled by stripStr and str.lower by
String.toLower (both agree on the ASCII inputs the claims concern).
The source accumulates error_details as one string, each append terminated by
a newline; the model keeps the appended messages as a list, in append order.
-/

/-- Model of Python os.path.splitext for a bare filename (no directory
separators): the extension starts at the last dot, provided some character
before that dot is not itself a dot (so ".bashrc" has no extension). -/
def splitext (p : String) : String × String :=
  let rev := p.data.reverse
  let suf := rev.takeWhile (fun c => c ≠ '.')
  match rev.dropWhile (fun c => c ≠ '.') with
  | [] => (p, "")
  | _ :: pre =>
    if pre.any (fun c => c ≠ '.') then
      (String.mk pre.reverse, String.mk ('.' :: suf.reverse))
    else
      (p, "")

/-- Model of Python str.lower restricted to ASCII, applied to filename
extensions (app.py line 65): lower-case every character. -/
def lowerStr (s : String) : String :=
  String.mk (s.data.map Char.toLower)

/-- Model of Python str.strip (app.py line 87): drop whitespace characters
from both ends of the string. -/
def stripStr (s : String) : String :=
  String.mk (((s.data.dropWhile Char.isWhitespace).reverse.dropWhile
    Char.isWhitespace).reverse)

/-- Which engine produced the converted text (app.py has no explicit field;
fallback use is signalled by annotating the display name, line 89). The tag is
meaningful only on success. -/
inductive Engine where
  | primary
  | fallback
deriving DecidableEq, Repr

/-- State built by the conversion attempts of process_file, app.py lines
70..93: text_content, conversion_success, error_details (as a list of the
appended messages, in order), the possibly annotated display name, and the
engine tag. -/
structure ConvState where
  text_content : String
  conversion_success : Bool
  error_details : List String
  display_name : String
  engine_used : Engine
deriving DecidableEq, Repr

/-- The pdfplumber concatenation of app.py line 86: join the per-page
extract_text results with a blank-line separator, a missing per-page result
(None) treated as the empty string. -/
def joinPages (pages : List (Option String)) : String :=
  String.intercalate "\n\n" (pages.map (fun pg => pg.getD ""))

/-- The two-stage conversion of app.py lines 70..93. `primary` is the result
of md_engine.convert (ok text_content, or the raised message); `fallback` is
the result of the pdfplumber page extraction (ok pages, or the raised
message); `suffix` is the lower-cased filename extension. -/
def convertDoc (primary : Except String String)
    (fallback : Except String (List (Option String)))
    (suffix : String) (original_filename : String) : ConvState :=
  match primary with
  | .ok t => ⟨t, true, [], original_filename, .primary⟩
  | .error e =>
    let errs := ["MarkItDown failed: " ++ e]
    if suffix = ".pdf" then
      match fallback with
      | .ok pages =>
        let t := joinPages pages
        if stripStr t ≠ "" then
          ⟨t, true, errs, original_filename ++ " (processed with Fallback Engine)", .fallback⟩
        else
          ⟨t, false, errs ++ ["Fallback failed: PDF appears empty."], original_filename, .fallback⟩
      | .error fe =>
        ⟨"", false, errs ++ ["Fallback failed: " ++ fe], original_filename, .fallback⟩
    else
      ⟨"", false, errs, original_filename, .primary⟩

/-- The size-comparison percentage of app.py lines 136..139: a guarded
division, 0 when the original size is 0. Modelled over the rationals. -/
def savingsOf (original_size_bytes converted_size_bytes : Nat) : ℚ :=
  if original_size_bytes > 0 then
    (((original_size_bytes : ℚ) - (converted_size_bytes : ℚ)) / (original_size_bytes : ℚ)) * 100
  else 0

/-- The wording chosen for the percentage line, app.py lines 151..154:
"smaller" when savings is strictly positive, otherwise "larger". -/
inductive Wording where
  | smaller
  | larger
deriving DecidableEq, Repr

/-- Everything the success path of app.py (lines 96..154) shows for one
document: the success banner name, the preview text, the two download file
names, and the size-comparison tab contents. -/
structure SuccessView where
  display_name : String
  text : String
  download_md : String
  download_txt : String
  original_bytes : Nat
  converted_bytes : Nat
  savings : ℚ
  wording : Wording
  shown_percent : ℚ
deriving DecidableEq, Repr

/-- Build the success view from the conversion state, app.py lines 96..154:
converted bytes are the UTF-8 encoded length of the text (line 133), savings
per savingsOf, download names derived from the filename without extension
(lines 112 and 121), wording and the displayed magnitude per lines 151..154
(absolute value in the "larger" branch). -/
def renderSuccess (filename_no_ext : String) (st : ConvState)
    (original_size_bytes : Nat) : SuccessView :=
  let converted_size_bytes := st.text_content.utf8ByteSize
  let savings := savingsOf original_size_bytes converted_size_bytes
  { display_name := st.display_name
    text := st.text_content
    download_md := filename_no_ext ++ "_converted.md"
    download_txt := filename_no_ext ++ "_converted.txt"
    original_bytes := original_size_bytes
    converted_bytes := converted_size_bytes
    savings := savings
    wording := if savings > 0 then Wording.smaller else Wording.larger
    shown_percent := if savings > 0 then savings else |savings| }

/-- What process_file renders for one document: the success view (lines
96..154), the failure panel with its accumulated error details (lines
157..160), or the generic system-error message of the outer handler (lines
162..164). -/
inductive Report where
  | success (v : SuccessView)
  | failure (display_name : String) (error_details : List String)
  | systemError (original_filename : String)
deriving DecidableEq, Repr

/-- The environment of one document processing pass: the outcome of creating
and writing the temporary file (ok path, or raise), of each engine call, and
whether os.remove raises during cleanup. -/
structure Env where
  acquire : Except String String
  primary : Except String String
  fallback : Except String (List (Option String))
  removeFails : Bool
deriving Repr

/-- One uploaded document: its name, its size in bytes, and the environment
its processing pass will encounter. -/
structure Doc where
  name : String
  size : Nat
  env : Env
deriving Repr

/-- The cleanup block of app.py lines 166..172: if a path was assigned
(Python truthiness: non-None and non-empty) and the file exists, attempt
os.remove; a raise from os.remove is swallowed, leaving the file in place.
Returns the filesystem after cleanup; the function is total, so cleanup
itself never raises. -/
def release (tmp_file_path : Option String) (removeFails : Bool)
    (fs : List String) : List String :=
  match tmp_file_path with
  | none => fs
  | some p =>
    if p ≠ "" ∧ p ∈ fs then
      if removeFails then fs else fs.erase p
    else fs

/-- process_file, app.py lines 55..172, as a function from the document and
the filesystem to the rendered report and the filesystem after cleanup. On
successful acquisition the temporary path enters the filesystem; an
acquisition raise reaches the outer handler with tmp_file_path still None, so
cleanup touches nothing. The finally block runs on every path. -/
def process_file (doc : Doc) (fs : List String) : Report × List String :=
  let filename_no_ext := (splitext doc.name).1
  let suffix := lowerStr (splitext doc.name).2
  match doc.env.acquire with
  | .error _ => (Report.systemError doc.name, release none doc.env.removeFails fs)
  | .ok p =>
    let fs1 := p :: fs
    let st := convertDoc doc.env.primary doc.env.fallback suffix doc.name
    let report :=
      if st.conversion_success then
        Report.success (renderSuccess filename_no_ext st doc.size)
      else
        Report.failure st.display_name st.error_details
    (report, release (some p) doc.env.removeFails fs1)

/-- The per-file loop of main, app.py lines 50..53: process each uploaded
document in order, threading the filesystem through, collecting one report
per document. -/
def processBatch : List Doc → List String → List Report × List String
  | [], fs => ([], fs)
  | d :: ds, fs =>
    let r := process_file d fs
    let rest := processBatch ds r.2
    (r.1 :: rest.1, rest.2)

example : splitext "sheet.xlsx" = ("sheet", ".xlsx") := by decide
example : splitext ".bashrc" = (".bashrc", "") := by decide
example : splitext "a..b" = ("a.", ".b") := by decide
example : splitext "noext" = ("noext", "") := by decide
example : lowerStr (splitext "report.PDF").2 = ".pdf" := by decide
example : joinPages [some "Page 1 text", none, some "Page 2 text"] =
    "Page 1 text\n\n\n\nPage 2 text" := by decide
example :
    (convertDoc (Except.ok "") (Except.error "x") ".xlsx" "sheet.xlsx").conversion_success
      = true := by decide

/-- Unfolding of process_file when acquisition succeeds with path p: the
conversion runs on the lower-cased extension, the report is chosen by the
success flag, and cleanup runs on the filesystem extended with p. -/
theorem process_file_ok (name : String) (size : Nat) (p : String)
    (pri : Except String String) (fb : Except String (List (Option String)))
    (rm : Bool) (fs : List String) :
    process_file ⟨name, size, ⟨Except.ok p, pri, fb, rm⟩⟩ fs =
      (if (convertDoc pri fb (lowerStr (splitext name).2) name).conversion_success then
          Report.success (renderSuccess (splitext name).1
            (convertDoc pri fb (lowerStr (splitext name).2) name) size)
        else
          Report.failure (convertDoc pri fb (lowerStr (splitext name).2) name).display_name
            (convertDoc pri fb (lowerStr (splitext name).2) name).error_details,
        release (some p) rm (p :: fs)) := rfl

/-- C1 counterexample: the claimed iff fails on the code. When the primary
engine returns the empty string without raising (non-PDF input), app.py lines
76..78 set conversion_success to true with text_content empty, so
succeeded = true does not imply a non-empty text. -/
theorem C1_counterexample :
    (convertDoc (Except.ok "") (Except.error "unused") ".xlsx" "sheet.xlsx").conversion_success
        = true ∧
      (convertDoc (Except.ok "") (Except.error "unused") ".xlsx" "sheet.xlsx").text_content
        = "" :=
  ⟨rfl, rfl⟩

/-- C1 (amended): the outcome has succeeded = true if and only if the primary
engine completed without raising (its text may be empty), or the lower-cased
extension is ".pdf" and the fallback completed without raising with non-blank
concatenated text. -/
theorem C1_success_iff (primary : Except String String)
    (fallback : Except String (List (Option String))) (suffix name : String) :
    (convertDoc primary fallback suffix name).conversion_success = true ↔
      ((∃ t, primary = Except.ok t) ∨
        (suffix = ".pdf" ∧
          ∃ pages, fallback = Except.ok pages ∧ stripStr (joinPages pages) ≠ "")) := by
  cases primary with
  | ok t => simp [convertDoc]
  | error e =>
    by_cases hs : suffix = ".pdf"
    · subst hs
      cases fallback with
      | ok pages =>
        by_cases ht : stripStr (joinPages pages) = ""
        · simp [convertDoc, ht]
        · simp [convertDoc, ht]
      | error fe => simp [convertDoc]
    · simp [convertDoc, hs]

/-- C2 counterexample: the temporary file is not always absent after cleanup.
When os.remove raises (app.py lines 169..172 swallow the error), the file is
still present in the filesystem returned by the processing pass. -/
theorem C2_counterexample :
    "/tmp/doc.txt" ∈
      (process_file
        ⟨"doc.txt", 5, ⟨Except.ok "/tmp/doc.txt", Except.ok "hello", Except.error "nofb", true⟩⟩
        []).2 := by
  decide

/-- C2 (amended): on every exit path of the conversion (primary and fallback
results arbitrary), when os.remove does not itself fail, the temporary file
acquired for the document is absent from the filesystem after cleanup; when
os.remove fails the error is swallowed and the file may remain. Cleanup never
raises: release is total. Hypotheses: the acquired path is non-empty (Python
truthiness in the guard of line 168) and fresh (temp names are unique). -/
theorem C2_release_removes (name : String) (size : Nat) (p : String)
    (pri : Except String String) (fb : Except String (List (Option String)))
    (fs : List String) (hne : p ≠ "") (hfs : p ∉ fs) :
    p ∉ (process_file ⟨name, size, ⟨Except.ok p, pri, fb, false⟩⟩ fs).2 := by
  show p ∉
    (if p ≠ "" ∧ p ∈ p :: fs then
        if false = true then p :: fs else (p :: fs).erase p
      else p :: fs)
  rw [if_pos ⟨hne, List.mem_cons_self p fs⟩]
  show p ∉ (p :: fs).erase p
  rw [List.erase_cons_head]
  exact hfs

/-- C2 witness: a concrete run with a fresh non-empty path ends with the path
absent from the filesystem. -/
theorem C2_release_removes_witness :
    "/tmp/w.txt" ≠ "" ∧ "/tmp/w.txt" ∉ ([] : List String) ∧
      "/tmp/w.txt" ∉
        (process_file
          ⟨"w.txt", 3, ⟨Except.ok "/tmp/w.txt", Except.ok "hi", Except.error "nofb", false⟩⟩
          []).2 :=
  ⟨by decide, by decide,
    C2_release_removes "w.txt" 3 "/tmp/w.txt" (Except.ok "hi") (Except.error "nofb") []
      (by decide) (by decide)⟩

/-- C10: when creating the temporary file raises before a path is assigned,
the outer handler reports a generic system error for the document, and the
cleanup step attempts no deletion (the filesystem is returned unchanged) and
does not raise (release is total, and its None branch touches nothing). -/
theorem C10_acquire_raise (name : String) (size : Nat) (e : String)
    (pri : Except String String) (fb : Except String (List (Option String)))
    (rm : Bool) (fs : List String) :
    (process_file ⟨name, size, ⟨Except.error e, pri, fb, rm⟩⟩ fs).1
        = Report.systemError name ∧
      (process_file ⟨name, size, ⟨Except.error e, pri, fb, rm⟩⟩ fs).2 = fs :=
  ⟨rfl, rfl⟩

/-- C3: for a PDF input (lower-cased extension ".pdf") where the primary
engine raises and the fallback yields pages whose blank-line concatenation is
non-blank after stripping, the outcome succeeds with the fallback engine, the
text is exactly that concatenation, the display name carries the fallback
annotation, and the download file names stay derived from the unannotated
filename. -/
theorem C3_pdf_fallback_success (name : String) (size : Nat) (p e : String)
    (pages : List (Option String)) (rm : Bool) (fs : List String)
    (hext : lowerStr (splitext name).2 = ".pdf")
    (hnb : stripStr (joinPages pages) ≠ "") :
    (convertDoc (Except.error e) (Except.ok pages) ".pdf" name).conversion_success = true ∧
    (convertDoc (Except.error e) (Except.ok pages) ".pdf" name).engine_used
        = Engine.fallback ∧
    ∃ v, (process_file ⟨name, size, ⟨Except.ok p, Except.error e, Except.ok pages, rm⟩⟩ fs).1
        = Report.success v ∧
      v.text = joinPages pages ∧
      v.display_name = name ++ " (processed with Fallback Engine)" ∧
      v.download_md = (splitext name).1 ++ "_converted.md" ∧
      v.download_txt = (splitext name).1 ++ "_converted.txt" := by
  have hst : convertDoc (Except.error e) (Except.ok pages) ".pdf" name =
      ⟨joinPages pages, true, ["MarkItDown failed: " ++ e],
        name ++ " (processed with Fallback Engine)", Engine.fallback⟩ := by
    simp [convertDoc, hnb]
  refine ⟨by rw [hst], by rw [hst],
    renderSuccess (splitext name).1
      ⟨joinPages pages, true, ["MarkItDown failed: " ++ e],
        name ++ " (processed with Fallback Engine)", Engine.fallback⟩ size,
    ?_, rfl, rfl, rfl, rfl⟩
  rw [process_file_ok, hext, hst]
  rfl

/-- C3 witness: a concrete PDF whose primary attempt raises and whose fallback
extracts two pages is processed through the fallback with the annotated
display name. -/
theorem C3_witness :
    (convertDoc (Except.error "unsupported encoding")
        (Except.ok [some "Page 1 text", some "Page 2 text"]) ".pdf" "report.pdf").conversion_success
        = true ∧
    (convertDoc (Except.error "unsupported encoding")
        (Except.ok [some "Page 1 text", some "Page 2 text"]) ".pdf" "report.pdf").engine_used
        = Engine.fallback ∧
    ∃ v, (process_file
        ⟨"report.pdf", 5000,
          ⟨Except.ok "/tmp/r.pdf", Except.error "unsupported encoding",
            Except.ok [some "Page 1 text", some "Page 2 text"], false⟩⟩ []).1
        = Report.success v ∧
      v.text = joinPages [some "Page 1 text", some "Page 2 text"] ∧
      v.display_name = "report.pdf" ++ " (processed with Fallback Engine)" ∧
      v.download_md = (splitext "report.pdf").1 ++ "_converted.md" ∧
      v.download_txt = (splitext "report.pdf").1 ++ "_converted.txt" :=
  C3_pdf_fallback_success "report.pdf" 5000 "/tmp/r.pdf" "unsupported encoding"
    [some "Page 1 text", some "Page 2 text"] false [] (by decide) (by decide)

/-- C8: on the fallback success path the stored text is the raw blank-line
concatenation of the per-page texts, with leading and trailing whitespace
preserved; stripping enters only the blankness decision (hypothesis hnb),
never the stored text. -/
theorem C8_raw_fallback_text (name : String) (size : Nat) (p e : String)
    (pages : List (Option String)) (rm : Bool) (fs : List String)
    (hext : lowerStr (splitext name).2 = ".pdf")
    (hnb : stripStr (joinPages pages) ≠ "") :
    (convertDoc (Except.error e) (Except.ok pages) ".pdf" name).text_content
        = joinPages pages ∧
    ∃ v, (process_file ⟨name, size, ⟨Except.ok p, Except.error e, Except.ok pages, rm⟩⟩ fs).1
        = Report.success v ∧ v.text = joinPages pages := by
  have hst : convertDoc (Except.error e) (Except.ok pages) ".pdf" name =
      ⟨joinPages pages, true, ["MarkItDown failed: " ++ e],
        name ++ " (processed with Fallback Engine)", Engine.fallback⟩ := by
    simp [convertDoc, hnb]
  refine ⟨by rw [hst],
    renderSuccess (splitext name).1
      ⟨joinPages pages, true, ["MarkItDown failed: " ++ e],
        name ++ " (processed with Fallback Engine)", Engine.fallback⟩ size,
    ?_, rfl⟩
  rw [process_file_ok, hext, hst]
  rfl

/-- C8 witness: pages with leading and trailing whitespace are stored verbatim
after the blank-line join; the stored text differs from its stripped form, so
no stripping was applied to the output. -/
theorem C8_witness :
    (convertDoc (Except.error "bad xref") (Except.ok [some "  hello ", some "world  "])
        ".pdf" "memo.pdf").text_content
        = joinPages [some "  hello ", some "world  "] ∧
    (∃ v, (process_file
        ⟨"memo.pdf", 64,
          ⟨Except.ok "/tmp/m.pdf", Except.error "bad xref",
            Except.ok [some "  hello ", some "world  "], false⟩⟩ []).1
        = Report.success v ∧ v.text = joinPages [some "  hello ", some "world  "]) ∧
    joinPages [some "  hello ", some "world  "]
        ≠ stripStr (joinPages [some "  hello ", some "world  "]) :=
  ⟨(C8_raw_fallback_text "memo.pdf" 64 "/tmp/m.pdf" "bad xref"
      [some "  hello ", some "world  "] false [] (by decide) (by decide)).1,
    (C8_raw_fallback_text "memo.pdf" 64 "/tmp/m.pdf" "bad xref"
      [some "  hello ", some "world  "] false [] (by decide) (by decide)).2,
    by decide⟩

/-- C4: for an input whose lower-cased extension is not ".pdf", if the primary
engine raises then the whole processing pass is independent of the fallback
engine (it is never invoked), and when acquisition succeeded the report is the
failure panel with the single primary diagnostic. -/
theorem C4_nonpdf_no_fallback (name : String) (size : Nat) (acq : Except String String)
    (e : String) (fb fb2 : Except String (List (Option String))) (rm : Bool)
    (fs : List String)
    (hext : lowerStr (splitext name).2 ≠ ".pdf") :
    process_file ⟨name, size, ⟨acq, Except.error e, fb, rm⟩⟩ fs =
      process_file ⟨name, size, ⟨acq, Except.error e, fb2, rm⟩⟩ fs ∧
    ∀ p, acq = Except.ok p →
      (process_file ⟨name, size, ⟨acq, Except.error e, fb, rm⟩⟩ fs).1 =
        Report.failure name ["MarkItDown failed: " ++ e] := by
  have hst : ∀ fb3 : Except String (List (Option String)),
      convertDoc (Except.error e) fb3 (lowerStr (splitext name).2) name =
        ⟨"", false, ["MarkItDown failed: " ++ e], name, Engine.primary⟩ := by
    intro fb3
    simp [convertDoc, hext]
  cases acq with
  | error a =>
    refine ⟨rfl, ?_⟩
    intro p hp
    simp at hp
  | ok p =>
    constructor
    · rw [process_file_ok, process_file_ok, hst, hst]
    · intro q hq
      cases hq
      rw [process_file_ok, hst]
      rfl

/-- C4 witness: a concrete xlsx whose primary attempt raises gives the same
result for two different fallback environments and reports the single primary
failure. -/
theorem C4_witness :
    process_file
        ⟨"sheet.xlsx", 2000,
          ⟨Except.ok "/tmp/s.xlsx", Except.error "boom", Except.error "fb raises", false⟩⟩ [] =
      process_file
        ⟨"sheet.xlsx", 2000,
          ⟨Except.ok "/tmp/s.xlsx", Except.error "boom", Except.ok [some "page"], false⟩⟩ [] ∧
    (process_file
        ⟨"sheet.xlsx", 2000,
          ⟨Except.ok "/tmp/s.xlsx", Except.error "boom", Except.error "fb raises", false⟩⟩ []).1
      = Report.failure "sheet.xlsx" ["MarkItDown failed: boom"] :=
  ⟨(C4_nonpdf_no_fallback "sheet.xlsx" 2000 (Except.ok "/tmp/s.xlsx") "boom"
      (Except.error "fb raises") (Except.ok [some "page"]) false [] (by decide)).1,
    (C4_nonpdf_no_fallback "sheet.xlsx" 2000 (Except.ok "/tmp/s.xlsx") "boom"
      (Except.error "fb raises") (Except.ok [some "page"]) false [] (by decide)).2
      "/tmp/s.xlsx" rfl⟩

/-- Number of engine attempts that failed, modelled from the spec for
comparison with the diagnostics accumulated by the code: the primary attempt
fails when it raises; the fallback is attempted only then and only for a
".pdf" suffix, and fails when it raises or when its concatenated text is
blank after stripping. -/
def numFailedAttempts (primary : Except String String)
    (fallback : Except String (List (Option String))) (suffix : String) : Nat :=
  (match primary with
   | .ok _ => 0
   | .error _ => 1) +
  (match primary with
   | .ok _ => 0
   | .error _ =>
     if suffix = ".pdf" then
       match fallback with
       | .error _ => 1
       | .ok pages => if stripStr (joinPages pages) = "" then 1 else 0
     else 0)

/-- C5: the accumulated diagnostics hold exactly one message per failed
engine attempt; whenever the primary attempt failed its message is the first
entry, and when the fallback attempt also failed (by raising, or by yielding
blank text) its message follows the primary one, nothing discarded. -/
theorem C5_diagnostics (primary : Except String String)
    (fallback : Except String (List (Option String))) (suffix name : String) :
    (convertDoc primary fallback suffix name).error_details.length
        = numFailedAttempts primary fallback suffix ∧
    (∀ e, primary = Except.error e →
      (convertDoc primary fallback suffix name).error_details.head? =
        some ("MarkItDown failed: " ++ e)) ∧
    (∀ e fe, primary = Except.error e → suffix = ".pdf" → fallback = Except.error fe →
      (convertDoc primary fallback suffix name).error_details =
        ["MarkItDown failed: " ++ e, "Fallback failed: " ++ fe]) ∧
    (∀ e pages, primary = Except.error e → suffix = ".pdf" → fallback = Except.ok pages →
      stripStr (joinPages pages) = "" →
      (convertDoc primary fallback suffix name).error_details =
        ["MarkItDown failed: " ++ e, "Fallback failed: PDF appears empty."]) := by
  cases primary with
  | ok t => simp [convertDoc, numFailedAttempts]
  | error e =>
    by_cases hs : suffix = ".pdf"
    · subst hs
      cases fallback with
      | ok pages =>
        by_cases ht : stripStr (joinPages pages) = ""
        · simp [convertDoc, numFailedAttempts, ht]
        · simp [convertDoc, numFailedAttempts, ht]
      | error fe => simp [convertDoc, numFailedAttempts]
    · simp [convertDoc, numFailedAttempts, hs]

/-- C5 witness: a PDF where both engines raise has exactly two diagnostics in
attempt order, counted by numFailedAttempts. -/
theorem C5_witness :
    (convertDoc (Except.error "bad xref") (Except.error "corrupt") ".pdf"
        "broken.pdf").error_details.length
      = numFailedAttempts (Except.error "bad xref") (Except.error "corrupt") ".pdf" ∧
    (convertDoc (Except.error "bad xref") (Except.error "corrupt") ".pdf"
        "broken.pdf").error_details
      = ["MarkItDown failed: bad xref", "Fallback failed: corrupt"] :=
  ⟨(C5_diagnostics (Except.error "bad xref") (Except.error "corrupt") ".pdf" "broken.pdf").1,
    (C5_diagnostics (Except.error "bad xref") (Except.error "corrupt") ".pdf"
      "broken.pdf").2.2.1 "bad xref" "corrupt" rfl rfl rfl⟩

/-- C6: every success report computes converted bytes as the UTF-8 encoded
byte length of the stored text, carries the original document size, and its
percentage delta follows the guarded formula: the signed relative difference
times 100 when the original size is positive, and 0 when it is 0. -/
theorem C6_size_report (doc : Doc) (fs : List String) (v : SuccessView)
    (h : (process_file doc fs).1 = Report.success v) :
    v.converted_bytes = v.text.utf8ByteSize ∧
    v.original_bytes = doc.size ∧
    v.savings =
      (if v.original_bytes > 0 then
          (((v.original_bytes : ℚ) - (v.converted_bytes : ℚ)) / (v.original_bytes : ℚ)) * 100
        else 0) := by
  obtain ⟨nm, sz, ⟨acq, pri, fb, rm⟩⟩ := doc
  cases acq with
  | error a => simp [process_file] at h
  | ok p =>
    rw [process_file_ok] at h
    by_cases hc :
        (convertDoc pri fb (lowerStr (splitext nm).2) nm).conversion_success = true
    · rw [if_pos hc] at h
      have hv : v = renderSuccess (splitext nm).1
          (convertDoc pri fb (lowerStr (splitext nm).2) nm) sz := by
        have h1 := h
        injection h1 with h2
        exact h2.symm
      subst hv
      exact ⟨rfl, rfl, rfl⟩
    · rw [if_neg hc] at h
      exact absurd h (by simp)

/-- C6 witness: a 2000-byte document converted to the four-character text
with a two-byte character has converted bytes 5 (the encoded length, not the
character count) and the guarded percentage. -/
theorem C6_witness :
    (renderSuccess (splitext "note.txt").1
        (convertDoc (Except.ok "café") (Except.error "nofb")
          (lowerStr (splitext "note.txt").2) "note.txt") 2000).converted_bytes
      = (renderSuccess (splitext "note.txt").1
          (convertDoc (Except.ok "café") (Except.error "nofb")
            (lowerStr (splitext "note.txt").2) "note.txt") 2000).text.utf8ByteSize ∧
    (renderSuccess (splitext "note.txt").1
        (convertDoc (Except.ok "café") (Except.error "nofb")
          (lowerStr (splitext "note.txt").2) "note.txt") 2000).savings
      = (if (renderSuccess (splitext "note.txt").1
            (convertDoc (Except.ok "café") (Except.error "nofb")
              (lowerStr (splitext "note.txt").2) "note.txt") 2000).original_bytes > 0 then
          (((renderSuccess (splitext "note.txt").1
              (convertDoc (Except.ok "café") (Except.error "nofb")
                (lowerStr (splitext "note.txt").2) "note.txt") 2000).original_bytes : ℚ)
            - ((renderSuccess (splitext "note.txt").1
                (convertDoc (Except.ok "café") (Except.error "nofb")
                  (lowerStr (splitext "note.txt").2) "note.txt") 2000).converted_bytes : ℚ))
            / ((renderSuccess (splitext "note.txt").1
                (convertDoc (Except.ok "café") (Except.error "nofb")
                  (lowerStr (splitext "note.txt").2) "note.txt") 2000).original_bytes : ℚ)
            * 100
        else 0) ∧
    (renderSuccess (splitext "note.txt").1
        (convertDoc (Except.ok "café") (Except.error "nofb")
          (lowerStr (splitext "note.txt").2) "note.txt") 2000).converted_bytes = 5 ∧
    (renderSuccess (splitext "note.txt").1
        (convertDoc (Except.ok "café") (Except.error "nofb")
          (lowerStr (splitext "note.txt").2) "note.txt") 2000).text.length = 4 := by
  have h := C6_size_report
    ⟨"note.txt", 2000, ⟨Except.ok "/tmp/n.txt", Except.ok "café", Except.error "nofb", false⟩⟩
    []
    (renderSuccess (splitext "note.txt").1
      (convertDoc (Except.ok "café") (Except.error "nofb")
        (lowerStr (splitext "note.txt").2) "note.txt") 2000)
    rfl
  exact ⟨h.1, h.2.2, by decide, by decide⟩

/-- Unfolding of the batch loop on a non-empty list of documents. -/
theorem processBatch_cons (d : Doc) (ds : List Doc) (fs : List String) :
    processBatch (d :: ds) fs =
      ((process_file d fs).1 :: (processBatch ds (process_file d fs).2).1,
        (processBatch ds (process_file d fs).2).2) := rfl

/-- The batch loop yields exactly one report per document. -/
theorem processBatch_length (ds : List Doc) (fs : List String) :
    (processBatch ds fs).1.length = ds.length := by
  induction ds generalizing fs with
  | nil => rfl
  | cons d ds ih => rw [processBatch_cons]; simp [ih]

/-- C7: processing is contained per document: a batch starting with any
document still yields one report per document, the remaining documents are
processed exactly as they would be after the first one (whatever its
outcome), and when acquisition for the first document raises, its report is
the generic system-error message, not a propagated exception. -/
theorem C7_fault_containment (d : Doc) (ds : List Doc) (fs : List String) :
    (processBatch (d :: ds) fs).1.length = ds.length + 1 ∧
    (processBatch (d :: ds) fs).1 =
      (process_file d fs).1 :: (processBatch ds (process_file d fs).2).1 ∧
    ∀ e, d.env.acquire = Except.error e →
      (processBatch (d :: ds) fs).1.head? = some (Report.systemError d.name) := by
  refine ⟨?_, ?_, ?_⟩
  · rw [processBatch_cons]
    simp [processBatch_length]
  · rw [processBatch_cons]
  · intro e he
    obtain ⟨nm, sz, ⟨acq, pri, fb, rm⟩⟩ := d
    cases acq with
    | ok p => simp at he
    | error a => rfl

/-- C7 witness: a document whose acquisition raises is reported as a system
error while the following document is still processed, giving two reports. -/
theorem C7_witness :
    (processBatch
        [⟨"bad.docx", 7, ⟨Except.error "disk full", Except.ok "t", Except.error "f", false⟩⟩,
          ⟨"good.txt", 3, ⟨Except.ok "/tmp/g.txt", Except.ok "hi", Except.error "f", false⟩⟩]
        []).1.length = 2 ∧
    (processBatch
        [⟨"bad.docx", 7, ⟨Except.error "disk full", Except.ok "t", Except.error "f", false⟩⟩,
          ⟨"good.txt", 3, ⟨Except.ok "/tmp/g.txt", Except.ok "hi", Except.error "f", false⟩⟩]
        []).1.head? = some (Report.systemError "bad.docx") := by
  have h := C7_fault_containment
    ⟨"bad.docx", 7, ⟨Except.error "disk full", Except.ok "t", Except.error "f", false⟩⟩
    [⟨"good.txt", 3, ⟨Except.ok "/tmp/g.txt", Except.ok "hi", Except.error "f", false⟩⟩]
    []
  exact ⟨h.1, h.2.2 "disk full" rfl⟩

/-- C9: whenever the computed percentage delta of a success view is exactly
0, the wording chosen is "larger" (the "smaller" wording requires a strictly
positive delta) and the displayed magnitude is 0. -/
theorem C9_zero_delta (st : ConvState) (filename_no_ext : String) (n : Nat)
    (h : (renderSuccess filename_no_ext st n).savings = 0) :
    (renderSuccess filename_no_ext st n).wording = Wording.larger ∧
    (renderSuccess filename_no_ext st n).shown_percent = 0 := by
  have hs : savingsOf n st.text_content.utf8ByteSize = 0 := h
  constructor
  · show (if savingsOf n st.text_content.utf8ByteSize > 0 then Wording.smaller
        else Wording.larger) = Wording.larger
    rw [hs]
    norm_num
  · show (if savingsOf n st.text_content.utf8ByteSize > 0 then
          savingsOf n st.text_content.utf8ByteSize
        else |savingsOf n st.text_content.utf8ByteSize|) = 0
    rw [hs]
    norm_num

/-- C9 witness: with original size 0 the delta is 0 by the guard, and the
rendered line reports a 0 percent larger text, not smaller. -/
theorem C9_witness :
    (renderSuccess "empty" ⟨"hello", true, [], "empty.txt", Engine.primary⟩ 0).wording
        = Wording.larger ∧
    (renderSuccess "empty" ⟨"hello", true, [], "empty.txt", Engine.primary⟩ 0).shown_percent
        = 0 :=
  C9_zero_delta ⟨"hello", true, [], "empty.txt", Engine.primary⟩ "empty" 0 (by decide)
